import Mathlib

/-!
# Voice-assistant relay server (`server.js`)

A shallow embedding of the Express server of `server.js`.

The server is a single Node.js process: every callback and every stretch of an
`async` function between two `await`s runs to completion before anything else
runs.  The embedding follows that execution model.  The state is the module
variable `shouldDownloadFile`, the two files `recordFile` and `voicedFile`, and,
for each upload request, the `await` at which its pipeline is suspended.  An
`Event` is something the runtime delivers to the process (an HTTP request, a
`data` or `end` callback of a request body, the settling of an awaited promise);
`step` runs the piece of `server.js` that the event resumes and returns the new
state together with what that piece does to the outside (`Output`).

What is outside `server.js` is an input of the model, not a part of it: the
results of the three provider calls and of `wav.arrayBuffer()`, and the progress
of `fs.promises.writeFile` and of the read stream of a download, are carried by
the events.  A write of the file is not one step: the file is opened (created or
truncated), bytes reach it, and only then is the promise fulfilled.  A download
is not one step either: `fs.stat`, then the reads of the stream, each of them
seeing the file as it is at that moment.
-/

namespace VoiceServer

/-- File contents and request bodies: a sequence of byte values. -/
abbrev Bytes := List Nat

/-- A JavaScript error value, as thrown by a rejected promise. -/
structure JsError where
  message : String
deriving DecidableEq, Repr

/-- How an awaited promise settles: fulfilled with a value or rejected. -/
abbrev Settled (α : Type) := Except JsError α

/-- The value of `const maxTokens = 30`. -/
def maxTokens : Nat := 30

/-- The three `async function`s of `server.js`. -/
inductive Fn
  | speechToTextAPI
  | callGPT
  | GptResponsetoSpeech
deriving DecidableEq, Repr

/-- The three provider endpoints called through the `openai` client. -/
inductive Api
  | transcriptions
  | chatCompletions
  | speech
deriving DecidableEq, Repr

/-- A chat completion as `callGPT` reads it: the list `completion.choices`,
each choice reduced to its `message.content` (a string or `null`). -/
structure Completion where
  choices : List (Option String)
deriving DecidableEq, Repr

/-- What a piece of `server.js` does to the outside while it runs. Strings that
may be `null` in JavaScript are `Option String`. -/
inductive Output
  /-- The call `res.status(status).send(body)` on the upload request `req`. -/
  | send (req : Nat) (status : Nat) (body : Option String)
  /-- The call `res.send` with a fixed text, under the default status. -/
  | sendText (status : Nat) (body : String)
  /-- The call `res.json` on the object whose only field is `ready`, under the default status. -/
  | json (status : Nat) (ready : Bool)
  /-- The call `res.sendStatus(code)`, made while the head of the response is not yet written. -/
  | sendStatus (code : Nat)
  /-- The call `res.writeHead` with the status and the two headers `Content-Type` and `Content-Length`. -/
  | writeHead (status : Nat) (contentType : String) (contentLength : Nat)
  /-- A chunk that `readStream.pipe(res)` passes to the response of a download. -/
  | pipe (download : Nat) (chunk : Bytes)
  /-- A `console.log` line: its label and the value printed after it. -/
  | consoleLog (label : String) (value : Option String)
  /-- A `console.error` line: its label. -/
  | consoleError (label : String)
  /-- A call of one of the `async function`s, for request `req`, with its argument. -/
  | invoke (fn : Fn) (req : Nat) (arg : Option String)
  /-- A request sent to a provider endpoint, with its text input and length cap. -/
  | provider (api : Api) (req : Nat) (input : Option String) (cap : Option Nat)
  /-- An exception thrown out of a callback with nothing to catch it; the
  process does not outlive it. -/
  | throws (code : String)
deriving DecidableEq, Repr

/-- Where the pipeline of one upload request stands: the callback or `await`
it is waiting at. -/
inductive Stage
  /-- The request has not arrived yet. -/
  | fresh
  /-- The write stream on `recordFile` is open at byte `offset`; `data` and
  `end` callbacks are pending. -/
  | receiving (offset : Nat)
  /-- Suspended at `await speechToTextAPI()`. -/
  | transcribing
  /-- Function `callGPT` is suspended at `await openai.chat.completions.create(...)`. -/
  | generating
  /-- Function `GptResponsetoSpeech` is suspended at `await openai.audio.speech.create(...)`. -/
  | synthesizing
  /-- Function `GptResponsetoSpeech` is suspended at `await wav.arrayBuffer()`. -/
  | buffering
  /-- Function `GptResponsetoSpeech` is suspended at `await fs.promises.writeFile(voicedFile, buffer)`
  and the write has not opened the file yet. -/
  | opening (buffer : Bytes)
  /-- Function `GptResponsetoSpeech` is suspended at `await fs.promises.writeFile(voicedFile, buffer)`
  and the write has opened the file. -/
  | writing (buffer : Bytes)
  /-- Every promise of the request has been fulfilled; nothing is pending. -/
  | settled
  /-- A promise of the request was rejected and nothing handled it. -/
  | rejected (error : JsError)
deriving DecidableEq, Repr

/-- Where one `GET /broadcastAudio` request stands. -/
inductive Download
  /-- The request has not arrived yet. -/
  | fresh
  /-- The callback of `fs.stat(voicedFile, ...)` is pending. -/
  | statting
  /-- The head is written and the read stream is piped to the response; the
  stream has read the file up to byte `offset`. -/
  | streaming (offset : Nat)
  /-- The response is complete. -/
  | finished
  /-- The `error` listener of the read stream threw. -/
  | threw (error : JsError)
deriving DecidableEq, Repr

/-- The state of the process and of its two files. -/
structure Server where
  /-- The module variable `let shouldDownloadFile`. -/
  shouldDownloadFile : Bool
  /-- The file at `recordFile`: absent, or its bytes. -/
  recordFile : Option Bytes
  /-- The file at `voicedFile`: absent, or its bytes. -/
  voicedFile : Option Bytes
  /-- The pipeline stage of each upload request. -/
  stage : Nat → Stage
  /-- The state of each `GET /broadcastAudio` request. -/
  download : Nat → Download

/-- What the runtime delivers to the process. -/
inductive Event
  /-- A `POST /uploadAudio` arrives as request `req`. -/
  | uploadStart (req : Nat)
  /-- The `data` callback of the request fires with a chunk. -/
  | uploadData (req : Nat) (chunk : Bytes)
  /-- The `end` callback of the request fires. -/
  | uploadEnd (req : Nat)
  /-- The promise of `openai.audio.transcriptions.create` settles. -/
  | transcribed (req : Nat) (result : Settled String)
  /-- The promise of `openai.chat.completions.create` settles. -/
  | completed (req : Nat) (result : Settled Completion)
  /-- The promise of `openai.audio.speech.create` settles. -/
  | speechCreated (req : Nat) (result : Settled Unit)
  /-- The promise of `wav.arrayBuffer()` settles. -/
  | arrayBuffered (req : Nat) (result : Settled Bytes)
  /-- The write started by `fs.promises.writeFile(voicedFile, buffer)` opens the
  file with flag `w`, or fails to open it. -/
  | fileOpened (req : Nat) (result : Settled Unit)
  /-- The write in flight has brought the first `count` bytes of its buffer into the file. -/
  | flushed (req : Nat) (count : Nat)
  /-- The promise of `fs.promises.writeFile(voicedFile, buffer)` settles after the
  file was opened. -/
  | written (req : Nat) (result : Settled Unit)
  /-- A `GET /` arrives. -/
  | getRoot
  /-- A `GET /checkVariable` arrives. -/
  | getCheckVariable
  /-- A `GET /broadcastAudio` arrives as download `download`. -/
  | getBroadcastAudio (download : Nat)
  /-- The callback of `fs.stat` of a download runs. -/
  | statDone (download : Nat)
  /-- The read stream of a download reads on, asking for `count + 1` bytes. -/
  | streamRead (download : Nat) (count : Nat)
  /-- The read stream of a download emits `error`. -/
  | streamError (download : Nat) (error : JsError)

/-- The process right after start-up: `let shouldDownloadFile = false`, no
request yet, and whatever the two paths hold on disk. -/
def boot (recordFile voicedFile : Option Bytes) : Server :=
  { shouldDownloadFile := false
    recordFile := recordFile
    voicedFile := voicedFile
    stage := fun _ => Stage.fresh
    download := fun _ => Download.fresh }

/-- Move request `req` to stage `st`. -/
def Server.setStage (s : Server) (req : Nat) (st : Stage) : Server :=
  { s with stage := Function.update s.stage req st }

/-- Move download `d` to state `st`. -/
def Server.setDownload (s : Server) (d : Nat) (st : Download) : Server :=
  { s with download := Function.update s.download d st }

/-- A positional write of `chunk` at byte `offset` of a file holding `file`:
bytes before the offset stay (a gap is filled with zeros), the chunk replaces
what was there, bytes after the chunk stay. -/
def writeAt (file : Bytes) (offset : Nat) (chunk : Bytes) : Bytes :=
  file.take offset ++ List.replicate (offset - file.length) 0 ++ chunk
    ++ file.drop (offset + chunk.length)

/-- The body of `app.post('/uploadAudio', ...)` up to the registration of the
two callbacks: `shouldDownloadFile = false`, then `fs.createWriteStream(recordFile)`,
which creates the file or truncates it to length zero. -/
def uploadAudio (s : Server) (req : Nat) : Server × List Output :=
  (({ s with shouldDownloadFile := false, recordFile := some [] }).setStage req
      (Stage.receiving 0), [])

/-- The callback `req.on('data')`: `recordingFile.write(data)` at the current
offset of the stream. -/
def uploadAudio_onData (s : Server) (req offset : Nat) (data : Bytes) :
    Server × List Output :=
  (({ s with recordFile := some (writeAt (s.recordFile.getD []) offset data) }).setStage req
      (Stage.receiving (offset + data.length)), [])

/-- The callback `req.on('end')` up to its first `await`: `recordingFile.end()`,
then the call of `speechToTextAPI`, which sends the transcription request. -/
def uploadAudio_onEnd (s : Server) (req : Nat) : Server × List Output :=
  (s.setStage req Stage.transcribing,
    [Output.invoke Fn.speechToTextAPI req none,
     Output.provider Api.transcriptions req none none])

/-- The function `speechToTextAPI` from its `await` on: inside `try` the text is
logged and returned; `catch` logs the error and returns `null`. -/
def speechToTextAPI (result : Settled String) : Settled (Option String) × List Output :=
  match result with
  | Except.ok transcription =>
      (Except.ok (some transcription), [Output.consoleLog "Transcription:" (some transcription)])
  | Except.error _ =>
      (Except.ok none, [Output.consoleError "Error in speechToTextAPI:"])

/-- The function `callGPT` up to its `await`: the message is built from `text`
and the chat request is sent with `max_tokens: maxTokens`. -/
def callGPT (req : Nat) (text : Option String) : List Output :=
  [Output.invoke Fn.callGPT req text,
   Output.provider Api.chatCompletions req text (some maxTokens)]

/-- The function `GptResponsetoSpeech` up to its first `await`: the speech
request is sent with `gptResponse` as input. -/
def GptResponsetoSpeech (req : Nat) (gptResponse : Option String) : List Output :=
  [Output.invoke Fn.GptResponsetoSpeech req gptResponse,
   Output.provider Api.speech req gptResponse none]

/-- The rest of the `end` callback once `await speechToTextAPI()` has a result:
`res.status(200).send(transcription)` and then `callGPT(transcription)`, which is
not awaited. A rejection of `speechToTextAPI` would not be handled here. -/
def uploadAudio_afterTranscription (s : Server) (req : Nat) (result : Settled String) :
    Server × List Output :=
  match speechToTextAPI result with
  | (Except.ok transcription, out) =>
      (s.setStage req Stage.generating,
        out ++ [Output.send req 200 transcription] ++ callGPT req transcription)
  | (Except.error e, out) => (s.setStage req (Stage.rejected e), out)

/-- The function `callGPT` from its `await` on. Inside `try`:
`completion.choices[0].message.content` (a `TypeError` when there is no first
choice), a log line, and the call of `GptResponsetoSpeech`, not awaited.
`catch` logs the error. -/
def callGPT_afterCompletion (s : Server) (req : Nat) (result : Settled Completion) :
    Server × List Output :=
  match result with
  | Except.ok completion =>
      match completion.choices with
      | gptResponse :: _ =>
          (s.setStage req Stage.synthesizing,
            [Output.consoleLog "GPT Response:" gptResponse] ++ GptResponsetoSpeech req gptResponse)
      | [] => (s.setStage req Stage.settled, [Output.consoleError "Error calling GPT:"])
  | Except.error _ => (s.setStage req Stage.settled, [Output.consoleError "Error calling GPT:"])

/-- The function `GptResponsetoSpeech` after `await openai.audio.speech.create(...)`:
on success `wav.arrayBuffer()` is called and awaited; `catch` logs the error. -/
def GptResponsetoSpeech_afterCreate (s : Server) (req : Nat) (result : Settled Unit) :
    Server × List Output :=
  match result with
  | Except.ok _ => (s.setStage req Stage.buffering, [])
  | Except.error _ => (s.setStage req Stage.settled, [Output.consoleError "Error saving audio file:"])

/-- The function `GptResponsetoSpeech` after `await wav.arrayBuffer()`: on success
`Buffer.from(...)` and the call of `fs.promises.writeFile(voicedFile, buffer)`,
awaited; the write has yet to open the file. `catch` logs the error. -/
def GptResponsetoSpeech_afterArrayBuffer (s : Server) (req : Nat) (result : Settled Bytes) :
    Server × List Output :=
  match result with
  | Except.ok buffer => (s.setStage req (Stage.opening buffer), [])
  | Except.error _ => (s.setStage req Stage.settled, [Output.consoleError "Error saving audio file:"])

/-- The function `GptResponsetoSpeech` after `await fs.promises.writeFile(voicedFile, buffer)`.
When the promise is fulfilled the file holds `buffer`, and `shouldDownloadFile = true`
follows. When it is rejected, `catch` logs the error and nothing else: the file
stays as the interrupted write left it. -/
def GptResponsetoSpeech_afterWriteFile (s : Server) (req : Nat) (buffer : Bytes)
    (result : Settled Unit) : Server × List Output :=
  match result with
  | Except.ok _ =>
      (({ s with voicedFile := some buffer, shouldDownloadFile := true }).setStage req
          Stage.settled, [])
  | Except.error _ => (s.setStage req Stage.settled, [Output.consoleError "Error saving audio file:"])

/-- The first thing `fs.promises.writeFile(voicedFile, buffer)` does: it opens the
file with flag `w`, which creates it or truncates it to length zero. When the
open fails the file is not touched and the promise is rejected, which resumes
`GptResponsetoSpeech` in its `catch`. -/
def writeFile_onOpen (s : Server) (req : Nat) (buffer : Bytes) (result : Settled Unit) :
    Server × List Output :=
  match result with
  | Except.ok _ => (({ s with voicedFile := some [] }).setStage req (Stage.writing buffer), [])
  | Except.error e => GptResponsetoSpeech_afterWriteFile s req buffer (Except.error e)

/-- The write in flight goes on: the file now holds the first `count` bytes of
the buffer. Nothing of `server.js` runs. -/
def writeFile_onFlush (s : Server) (buffer : Bytes) (count : Nat) : Server × List Output :=
  ({ s with voicedFile := some (buffer.take count) }, [])

/-- The handler `app.get('/')`. -/
def root (s : Server) : Server × List Output :=
  (s, [Output.sendText 200 "Hello World"])

/-- The handler `app.get('/checkVariable')`. -/
def checkVariable (s : Server) : Server × List Output :=
  (s, [Output.json 200 s.shouldDownloadFile])

/-- The handler `app.get('/broadcastAudio')`: it calls `fs.stat(voicedFile, ...)`
and returns. -/
def broadcastAudio (s : Server) (d : Nat) : Server × List Output :=
  (s.setDownload d Download.statting, [])

/-- The callback of `fs.stat`. With no file there is an error: it is logged and
404 is sent. Otherwise the head is written with the size the file has now, the
read stream is created and piped to the response. -/
def broadcastAudio_onStat (s : Server) (d : Nat) : Server × List Output :=
  match s.voicedFile with
  | none =>
      (s.setDownload d Download.finished,
        [Output.consoleError "File not found", Output.sendStatus 404])
  | some bytes =>
      (s.setDownload d (Download.streaming 0), [Output.writeHead 200 "audio/wav" bytes.length])

/-- One read of the piped stream at its offset, on the file as it is now: at
the end of the file the stream emits `end` (the listener is empty) and the pipe
ends the response; otherwise the bytes read, at most `count + 1`, go to the
response. -/
def broadcastAudio_onRead (s : Server) (d offset count : Nat) : Server × List Output :=
  match (s.voicedFile.getD []).drop offset with
  | [] => (s.setDownload d Download.finished, [])
  | b :: rest =>
      (s.setDownload d (Download.streaming (offset + ((b :: rest).take (count + 1)).length)),
        [Output.pipe d ((b :: rest).take (count + 1))])

/-- The listener `readStream.on('error')`: the error is logged, then
`res.sendStatus(500)` sets a header of a response whose head `res.writeHead` has
already written, which throws `ERR_HTTP_HEADERS_SENT`; no 500 is sent. -/
def broadcastAudio_onError (s : Server) (d : Nat) : Server × List Output :=
  (s.setDownload d (Download.threw ⟨"ERR_HTTP_HEADERS_SENT"⟩),
    [Output.consoleError "Error reading file", Output.throws "ERR_HTTP_HEADERS_SENT"])

/-- One event: the piece of `server.js` it resumes runs to its next `await` or
to its end. An event that no request is waiting for changes nothing. -/
def step (s : Server) : Event → Server × List Output
  | Event.uploadStart req =>
      match s.stage req with
      | Stage.fresh => uploadAudio s req
      | _ => (s, [])
  | Event.uploadData req chunk =>
      match s.stage req with
      | Stage.receiving offset => uploadAudio_onData s req offset chunk
      | _ => (s, [])
  | Event.uploadEnd req =>
      match s.stage req with
      | Stage.receiving _ => uploadAudio_onEnd s req
      | _ => (s, [])
  | Event.transcribed req result =>
      match s.stage req with
      | Stage.transcribing => uploadAudio_afterTranscription s req result
      | _ => (s, [])
  | Event.completed req result =>
      match s.stage req with
      | Stage.generating => callGPT_afterCompletion s req result
      | _ => (s, [])
  | Event.speechCreated req result =>
      match s.stage req with
      | Stage.synthesizing => GptResponsetoSpeech_afterCreate s req result
      | _ => (s, [])
  | Event.arrayBuffered req result =>
      match s.stage req with
      | Stage.buffering => GptResponsetoSpeech_afterArrayBuffer s req result
      | _ => (s, [])
  | Event.fileOpened req result =>
      match s.stage req with
      | Stage.opening buffer => writeFile_onOpen s req buffer result
      | _ => (s, [])
  | Event.flushed req count =>
      match s.stage req with
      | Stage.writing buffer => writeFile_onFlush s buffer count
      | _ => (s, [])
  | Event.written req result =>
      match s.stage req with
      | Stage.writing buffer => GptResponsetoSpeech_afterWriteFile s req buffer result
      | _ => (s, [])
  | Event.getRoot => root s
  | Event.getCheckVariable => checkVariable s
  | Event.getBroadcastAudio d =>
      match s.download d with
      | Download.fresh => broadcastAudio s d
      | _ => (s, [])
  | Event.statDone d =>
      match s.download d with
      | Download.statting => broadcastAudio_onStat s d
      | _ => (s, [])
  | Event.streamRead d count =>
      match s.download d with
      | Download.streaming offset => broadcastAudio_onRead s d offset count
      | _ => (s, [])
  | Event.streamError d _ =>
      match s.download d with
      | Download.streaming _ => broadcastAudio_onError s d
      | _ => (s, [])

/-- A whole execution: the events in the order the runtime delivers them, with
everything the process did to the outside, in order. -/
def run (s : Server) : List Event → Server × List Output
  | [] => (s, [])
  | ev :: evs =>
      let r := step s ev
      let rest := run r.1 evs
      (rest.1, r.2 ++ rest.2)

/-- The state an execution ends in. -/
def exec (s : Server) (evs : List Event) : Server := (run s evs).1

/-- The upload request an event belongs to, when it belongs to one. -/
def Event.request : Event → Option Nat
  | Event.uploadStart req => some req
  | Event.uploadData req _ => some req
  | Event.uploadEnd req => some req
  | Event.transcribed req _ => some req
  | Event.completed req _ => some req
  | Event.speechCreated req _ => some req
  | Event.arrayBuffered req _ => some req
  | Event.fileOpened req _ => some req
  | Event.flushed req _ => some req
  | Event.written req _ => some req
  | _ => none

/-- The event is a fulfilled `fs.promises.writeFile` of some request. -/
def Event.isWriteFulfilled : Event → Bool
  | Event.written _ (Except.ok _) => true
  | _ => false

/-- The event is a step of a write of `voicedFile`: the file is opened, bytes
reach it, or the write is fulfilled. -/
def Event.touchesVoicedFile : Event → Bool
  | Event.fileOpened _ (Except.ok _) => true
  | Event.flushed _ _ => true
  | Event.written _ (Except.ok _) => true
  | _ => false

/-- The event touches the recording while request `req` is being received: it
opens or writes the write stream of another request, or it is the `end`
callback of `req` itself. -/
def Event.disturbsUpload (req : Nat) : Event → Bool
  | Event.uploadStart r => decide (r ≠ req)
  | Event.uploadData r _ => decide (r ≠ req)
  | Event.uploadEnd r => decide (r = req)
  | _ => false

/-- The chunks that the events deliver to request `req`, in order. -/
def chunksOf (req : Nat) : List Event → List Bytes
  | [] => []
  | Event.uploadData r chunk :: evs =>
      if r = req then chunk :: chunksOf req evs else chunksOf req evs
  | _ :: evs => chunksOf req evs

/-- The body that the outputs deliver to download `d`: its piped chunks, in order. -/
def bodyOf (d : Nat) : List Output → Bytes
  | [] => []
  | Output.pipe r chunk :: out => if r = d then chunk ++ bodyOf d out else bodyOf d out
  | _ :: out => bodyOf d out

/-- The event is a failure inside `GptResponsetoSpeech` for request `req`: the
promise it is suspended at is rejected. That is the speech call,
`wav.arrayBuffer()`, or the file write, rejected at the open or after it. -/
def failsSynthesis (s : Server) (req : Nat) : Event → Bool
  | Event.speechCreated r (Except.error _) =>
      decide (r = req) && decide (s.stage req = Stage.synthesizing)
  | Event.arrayBuffered r (Except.error _) =>
      decide (r = req) && decide (s.stage req = Stage.buffering)
  | Event.fileOpened r (Except.error _) =>
      decide (r = req) &&
        (match s.stage req with
         | Stage.opening _ => true
         | _ => false)
  | Event.written r (Except.error _) =>
      decide (r = req) &&
        (match s.stage req with
         | Stage.writing _ => true
         | _ => false)
  | _ => false

/-! ## General facts about `step` and `run` -/

theorem setStage_shouldDownloadFile (s : Server) (req : Nat) (st : Stage) :
    (s.setStage req st).shouldDownloadFile = s.shouldDownloadFile := rfl

theorem setStage_voicedFile (s : Server) (req : Nat) (st : Stage) :
    (s.setStage req st).voicedFile = s.voicedFile := rfl

theorem setStage_recordFile (s : Server) (req : Nat) (st : Stage) :
    (s.setStage req st).recordFile = s.recordFile := rfl

theorem setStage_download (s : Server) (req : Nat) (st : Stage) :
    (s.setStage req st).download = s.download := rfl

theorem setStage_stage_same (s : Server) (req : Nat) (st : Stage) :
    (s.setStage req st).stage req = st := by
  simp [Server.setStage]

theorem setStage_stage_other (s : Server) (req other : Nat) (st : Stage) (h : other ≠ req) :
    (s.setStage req st).stage other = s.stage other := by
  simp [Server.setStage, Function.update, h]

theorem setDownload_shouldDownloadFile (s : Server) (d : Nat) (st : Download) :
    (s.setDownload d st).shouldDownloadFile = s.shouldDownloadFile := rfl

theorem setDownload_voicedFile (s : Server) (d : Nat) (st : Download) :
    (s.setDownload d st).voicedFile = s.voicedFile := rfl

theorem setDownload_recordFile (s : Server) (d : Nat) (st : Download) :
    (s.setDownload d st).recordFile = s.recordFile := rfl

theorem setDownload_stage (s : Server) (d : Nat) (st : Download) :
    (s.setDownload d st).stage = s.stage := rfl

theorem setDownload_download_same (s : Server) (d : Nat) (st : Download) :
    (s.setDownload d st).download d = st := by
  simp [Server.setDownload]

theorem setDownload_download_other (s : Server) (d other : Nat) (st : Download) (h : other ≠ d) :
    (s.setDownload d st).download other = s.download other := by
  simp [Server.setDownload, Function.update, h]

theorem exec_nil (s : Server) : exec s [] = s := rfl

theorem exec_cons (s : Server) (ev : Event) (evs : List Event) :
    exec s (ev :: evs) = exec (step s ev).1 evs := rfl

theorem run_cons_outputs (s : Server) (ev : Event) (evs : List Event) :
    (run s (ev :: evs)).2 = (step s ev).2 ++ (run (step s ev).1 evs).2 := rfl

theorem exec_append (s : Server) (evs more : List Event) :
    exec s (evs ++ more) = exec (exec s evs) more := by
  induction evs generalizing s with
  | nil => rfl
  | cons ev evs ih => simp only [List.cons_append, exec_cons, ih]

/-- The only step that turns the flag from false to true is a fulfilled
`writeFile` of a request suspended at that write; it leaves the written buffer
in `voicedFile`. -/
theorem step_sets_flag (s : Server) (ev : Event)
    (h0 : s.shouldDownloadFile = false) (h1 : (step s ev).1.shouldDownloadFile = true) :
    ∃ req buffer, ev = Event.written req (Except.ok ()) ∧ s.stage req = Stage.writing buffer ∧
      (step s ev).1.voicedFile = some buffer := by
  cases ev with
  | written req result =>
      simp only [step] at h1 ⊢
      split at h1
      next buffer hst =>
        cases result with
        | error e =>
            simp_all [GptResponsetoSpeech_afterWriteFile, setStage_shouldDownloadFile]
        | ok u =>
            refine ⟨req, buffer, rfl, hst, ?_⟩
            simp [hst, GptResponsetoSpeech_afterWriteFile, setStage_voicedFile]
      next => simp_all
  | _ =>
      exfalso
      revert h1
      simp only [step, uploadAudio, uploadAudio_onData, uploadAudio_onEnd,
        uploadAudio_afterTranscription, speechToTextAPI, callGPT_afterCompletion,
        GptResponsetoSpeech_afterCreate, GptResponsetoSpeech_afterArrayBuffer,
        GptResponsetoSpeech_afterWriteFile, writeFile_onOpen, writeFile_onFlush, root,
        checkVariable, broadcastAudio, broadcastAudio_onStat, broadcastAudio_onRead,
        broadcastAudio_onError]
      repeat' split
      all_goals simp_all [Server.setStage, Server.setDownload]

/-- No step removes the file at `voicedFile`. -/
theorem step_keeps_voicedFile (s : Server) (ev : Event) (h : s.voicedFile.isSome = true) :
    (step s ev).1.voicedFile.isSome = true := by
  cases ev
  all_goals
    simp only [step, uploadAudio, uploadAudio_onData, uploadAudio_onEnd,
      uploadAudio_afterTranscription, speechToTextAPI, callGPT_afterCompletion,
      GptResponsetoSpeech_afterCreate, GptResponsetoSpeech_afterArrayBuffer,
      GptResponsetoSpeech_afterWriteFile, writeFile_onOpen, writeFile_onFlush, root,
      checkVariable, broadcastAudio, broadcastAudio_onStat, broadcastAudio_onRead,
      broadcastAudio_onError]
    repeat' split
    all_goals simp_all [Server.setStage, Server.setDownload]

/-- A step that is not part of a write of `voicedFile` leaves the file as it was. -/
theorem step_voicedFile_unchanged (s : Server) (ev : Event) (h : ev.touchesVoicedFile = false) :
    (step s ev).1.voicedFile = s.voicedFile := by
  cases ev
  all_goals
    simp only [step, uploadAudio, uploadAudio_onData, uploadAudio_onEnd,
      uploadAudio_afterTranscription, speechToTextAPI, callGPT_afterCompletion,
      GptResponsetoSpeech_afterCreate, GptResponsetoSpeech_afterArrayBuffer,
      GptResponsetoSpeech_afterWriteFile, writeFile_onOpen, writeFile_onFlush, root,
      checkVariable, broadcastAudio, broadcastAudio_onStat, broadcastAudio_onRead,
      broadcastAudio_onError]
    repeat' split
    all_goals simp_all [Server.setStage, Server.setDownload, Event.touchesVoicedFile]

/-- A step that is not a fulfilled `writeFile` leaves a false flag false. -/
theorem step_flag_stays_false (s : Server) (ev : Event) (h : ev.isWriteFulfilled = false)
    (h0 : s.shouldDownloadFile = false) : (step s ev).1.shouldDownloadFile = false := by
  cases hf : (step s ev).1.shouldDownloadFile with
  | false => rfl
  | true =>
      obtain ⟨req, buffer, hev, _, _⟩ := step_sets_flag s ev h0 hf
      subst hev
      simp [Event.isWriteFulfilled] at h

theorem exec_voicedFile_unchanged (s : Server) (evs : List Event)
    (h : ∀ ev ∈ evs, ev.touchesVoicedFile = false) : (exec s evs).voicedFile = s.voicedFile := by
  induction evs generalizing s with
  | nil => rfl
  | cons ev evs ih =>
      rw [exec_cons, ih _ (fun e he => h e (List.mem_cons_of_mem _ he)),
        step_voicedFile_unchanged s ev (h ev (List.mem_cons_self _ _))]

theorem exec_flag_stays_false (s : Server) (evs : List Event)
    (h : ∀ ev ∈ evs, ev.isWriteFulfilled = false) (h0 : s.shouldDownloadFile = false) :
    (exec s evs).shouldDownloadFile = false := by
  induction evs generalizing s with
  | nil => exact h0
  | cons ev evs ih =>
      rw [exec_cons]
      exact ih _ (fun e he => h e (List.mem_cons_of_mem _ he))
        (step_flag_stays_false s ev (h ev (List.mem_cons_self _ _)) h0)

theorem exec_keeps_voicedFile (s : Server) (evs : List Event) (h : s.voicedFile.isSome = true) :
    (exec s evs).voicedFile.isSome = true := by
  induction evs generalizing s with
  | nil => exact h
  | cons ev evs ih =>
      rw [exec_cons]
      exact ih _ (step_keeps_voicedFile s ev h)

/-- The invariant behind the readiness flag: when it is true, the file at
`voicedFile` exists. -/
def ReadyHasFile (s : Server) : Prop :=
  s.shouldDownloadFile = true → s.voicedFile.isSome = true

theorem step_readyHasFile (s : Server) (ev : Event) (h : ReadyHasFile s) :
    ReadyHasFile (step s ev).1 := by
  intro h1
  cases h0 : s.shouldDownloadFile with
  | true => exact step_keeps_voicedFile s ev (h h0)
  | false =>
      obtain ⟨req, buffer, _, _, hv⟩ := step_sets_flag s ev h0 h1
      simp [hv]

theorem exec_readyHasFile (s : Server) (evs : List Event) (h : ReadyHasFile s) :
    ReadyHasFile (exec s evs) := by
  induction evs generalizing s with
  | nil => exact h
  | cons ev evs ih =>
      rw [exec_cons]
      exact ih _ (step_readyHasFile s ev h)

/-- A request whose promises are all fulfilled reacts to none of its events. -/
theorem step_settled (s : Server) (req : Nat) (ev : Event) (h : s.stage req = Stage.settled)
    (hev : ev.request = some req) : step s ev = (s, []) := by
  cases ev <;> simp [Event.request] at hev <;> subst hev <;> simp [step, h]

theorem writeAt_end (file chunk : Bytes) : writeAt file file.length chunk = file ++ chunk := by
  simp [writeAt]

/-- While request `req` is being received and holds the whole file, an event
that does not disturb the upload appends the chunk it carries for `req`, if
any, and nothing else. -/
theorem step_receiving (s : Server) (req : Nat) (acc : Bytes) (ev : Event)
    (hst : s.stage req = Stage.receiving acc.length) (hf : s.recordFile = some acc)
    (hq : ev.disturbsUpload req = false) :
    (step s ev).1.stage req = Stage.receiving (acc ++ (chunksOf req [ev]).flatten).length ∧
      (step s ev).1.recordFile = some (acc ++ (chunksOf req [ev]).flatten) := by
  cases ev with
  | uploadStart r =>
      have hr : r = req := by simpa [Event.disturbsUpload] using hq
      subst hr
      simp [step, hst, hf, chunksOf]
  | uploadData r chunk =>
      have hr : r = req := by simpa [Event.disturbsUpload] using hq
      subst hr
      simp [step, hst, hf, chunksOf, uploadAudio_onData, setStage_stage_same,
        setStage_recordFile, writeAt_end]
  | uploadEnd r =>
      have hr : r ≠ req := by simpa [Event.disturbsUpload] using hq
      simp only [step, chunksOf, List.flatten_nil, List.append_nil]
      split
      · simp [uploadAudio_onEnd, setStage_recordFile, setStage_stage_other _ _ _ _ (Ne.symm hr),
          hst, hf]
      · exact ⟨hst, hf⟩
  | transcribed r result =>
      simp only [step, chunksOf, List.flatten_nil, List.append_nil]
      split
      next h =>
        have hr : req ≠ r := by
          intro hr
          subst hr
          simp [hst] at h
        cases result <;>
          simp [uploadAudio_afterTranscription, speechToTextAPI, setStage_recordFile,
            setStage_stage_other _ _ _ _ hr, hst, hf]
      next => exact ⟨hst, hf⟩
  | completed r result =>
      simp only [step, chunksOf, List.flatten_nil, List.append_nil]
      split
      next h =>
        have hr : req ≠ r := by
          intro hr
          subst hr
          simp [hst] at h
        rcases result with e | ⟨⟨_ | ⟨c, cs⟩⟩⟩ <;>
          simp [callGPT_afterCompletion, setStage_recordFile, setStage_stage_other _ _ _ _ hr,
            hst, hf]
      next => exact ⟨hst, hf⟩
  | speechCreated r result =>
      simp only [step, chunksOf, List.flatten_nil, List.append_nil]
      split
      next h =>
        have hr : req ≠ r := by
          intro hr
          subst hr
          simp [hst] at h
        cases result <;>
          simp [GptResponsetoSpeech_afterCreate, setStage_recordFile,
            setStage_stage_other _ _ _ _ hr, hst, hf]
      next => exact ⟨hst, hf⟩
  | arrayBuffered r result =>
      simp only [step, chunksOf, List.flatten_nil, List.append_nil]
      split
      next h =>
        have hr : req ≠ r := by
          intro hr
          subst hr
          simp [hst] at h
        cases result <;>
          simp [GptResponsetoSpeech_afterArrayBuffer, setStage_recordFile,
            setStage_stage_other _ _ _ _ hr, hst, hf]
      next => exact ⟨hst, hf⟩
  | written r result =>
      simp only [step, chunksOf, List.flatten_nil, List.append_nil]
      split
      next buffer h =>
        have hr : req ≠ r := by
          intro hr
          subst hr
          simp [hst] at h
        cases result <;>
          simp [GptResponsetoSpeech_afterWriteFile, setStage_recordFile,
            setStage_stage_other _ _ _ _ hr, hst, hf]
      next => exact ⟨hst, hf⟩
  | fileOpened r result =>
      simp only [step, chunksOf, List.flatten_nil, List.append_nil]
      split
      next buffer h =>
        have hr : req ≠ r := by
          intro hr
          subst hr
          simp [hst] at h
        cases result <;>
          simp [writeFile_onOpen, GptResponsetoSpeech_afterWriteFile, setStage_recordFile,
            setStage_stage_other _ _ _ _ hr, hst, hf]
      next => exact ⟨hst, hf⟩
  | flushed r count =>
      simp only [step, chunksOf, List.flatten_nil, List.append_nil]
      split
      · exact ⟨hst, hf⟩
      · exact ⟨hst, hf⟩
  | getRoot => simpa [step, root, chunksOf] using And.intro hst hf
  | getCheckVariable => simpa [step, checkVariable, chunksOf] using And.intro hst hf
  | getBroadcastAudio d =>
      simp only [step, broadcastAudio, chunksOf, List.flatten_nil, List.append_nil]
      split <;> exact ⟨hst, hf⟩
  | statDone d =>
      simp only [step, broadcastAudio_onStat, chunksOf, List.flatten_nil, List.append_nil]
      split
      · split <;> exact ⟨hst, hf⟩
      · exact ⟨hst, hf⟩
  | streamRead d count =>
      simp only [step, broadcastAudio_onRead, chunksOf, List.flatten_nil, List.append_nil]
      split
      · split <;> exact ⟨hst, hf⟩
      · exact ⟨hst, hf⟩
  | streamError d e =>
      simp only [step, broadcastAudio_onError, chunksOf, List.flatten_nil, List.append_nil]
      split <;> exact ⟨hst, hf⟩

theorem chunksOf_cons (req : Nat) (ev : Event) (evs : List Event) :
    chunksOf req (ev :: evs) = chunksOf req [ev] ++ chunksOf req evs := by
  cases ev <;> simp [chunksOf]
  split <;> simp

/-- While request `req` is being received and holds the whole file, events that
do not disturb the upload append the chunks they carry for `req`, in order. -/
theorem exec_receiving (s : Server) (req : Nat) (acc : Bytes) (evs : List Event)
    (hst : s.stage req = Stage.receiving acc.length) (hf : s.recordFile = some acc)
    (hq : ∀ ev ∈ evs, ev.disturbsUpload req = false) :
    (exec s evs).stage req = Stage.receiving (acc ++ (chunksOf req evs).flatten).length ∧
      (exec s evs).recordFile = some (acc ++ (chunksOf req evs).flatten) := by
  induction evs generalizing s acc with
  | nil => simpa [exec_nil, chunksOf] using And.intro hst hf
  | cons ev evs ih =>
      obtain ⟨h1, h2⟩ := step_receiving s req acc ev hst hf (hq ev (List.mem_cons_self _ _))
      have := ih (step s ev).1 _ h1 h2 (fun e he => hq e (List.mem_cons_of_mem _ he))
      rw [exec_cons, chunksOf_cons]
      simpa [List.append_assoc] using this

theorem chunksOf_own_data (req : Nat) (chunks : List Bytes) :
    chunksOf req (chunks.map (Event.uploadData req)) = chunks := by
  induction chunks with
  | nil => rfl
  | cons c cs ih => simp [chunksOf, ih]

theorem disturbsUpload_own_data (req : Nat) (chunks : List Bytes) :
    ∀ ev ∈ chunks.map (Event.uploadData req), ev.disturbsUpload req = false := by
  intro ev hev
  obtain ⟨c, _, rfl⟩ := List.mem_map.mp hev
  simp [Event.disturbsUpload]

theorem bodyOf_append (d : Nat) (out more : List Output) :
    bodyOf d (out ++ more) = bodyOf d out ++ bodyOf d more := by
  induction out with
  | nil => rfl
  | cons o out ih =>
      cases o <;> simp [bodyOf, ih]
      split <;> simp

theorem take_read (bytes : Bytes) (offset count : Nat) :
    bytes.take offset ++ (bytes.drop offset).take count
      = bytes.take (offset + ((bytes.drop offset).take count).length) := by
  rw [List.take_add]
  congr 1
  rw [List.length_take]
  rcases Nat.le_total count (bytes.drop offset).length with h | h
  · rw [Nat.min_eq_left h]
  · rw [Nat.min_eq_right h, List.take_of_length_le h, List.take_of_length_le (le_refl _)]

/-- What download `d` has received so far, given the file `bytes` it is reading
and the state it is in. -/
def BodySoFar (bytes sent : Bytes) : Download → Prop
  | Download.fresh => sent = []
  | Download.statting => sent = []
  | Download.streaming offset => sent = bytes.take offset
  | Download.finished => sent = bytes
  | Download.threw _ => True

/-- While no write touches the file, a step keeps the file and keeps what
download `d` has received in line with its offset. -/
theorem step_body (s : Server) (d : Nat) (bytes sent : Bytes) (ev : Event)
    (hf : s.voicedFile = some bytes) (hq : ev.touchesVoicedFile = false)
    (hb : BodySoFar bytes sent (s.download d)) :
    (step s ev).1.voicedFile = some bytes ∧
      BodySoFar bytes (sent ++ bodyOf d (step s ev).2) ((step s ev).1.download d) := by
  refine ⟨by rw [step_voicedFile_unchanged s ev hq, hf], ?_⟩
  cases ev with
  | getBroadcastAudio r =>
      simp only [step, broadcastAudio]
      split
      next h =>
        by_cases hr : d = r
        · subst hr
          rw [h] at hb
          simpa [setDownload_download_same, bodyOf, BodySoFar] using hb
        · simpa [setDownload_download_other _ _ _ _ hr, bodyOf] using hb
      next => simpa [bodyOf] using hb
  | statDone r =>
      simp only [step, broadcastAudio_onStat, hf]
      split
      next h =>
        by_cases hr : d = r
        · subst hr
          rw [h] at hb
          simpa [setDownload_download_same, bodyOf, BodySoFar] using hb
        · simpa [setDownload_download_other _ _ _ _ hr, bodyOf] using hb
      next => simpa [bodyOf] using hb
  | streamRead r count =>
      simp only [step, broadcastAudio_onRead, hf, Option.getD_some]
      split
      next offset h =>
        split
        next hd =>
          by_cases hr : d = r
          · subst hr
            rw [h] at hb
            simp only [BodySoFar] at hb
            have := List.take_append_drop offset bytes
            rw [hd, List.append_nil] at this
            simp [setDownload_download_same, bodyOf, BodySoFar, hb, this]
          · simpa [setDownload_download_other _ _ _ _ hr, bodyOf] using hb
        next b rest hd =>
          by_cases hr : d = r
          · subst hr
            rw [h] at hb
            simp only [BodySoFar] at hb
            rw [← hd]
            simp only [setDownload_download_same, bodyOf, BodySoFar, if_true, List.append_nil, hb]
            exact take_read bytes offset (count + 1)
          · have hne : ¬ r = d := fun h => hr h.symm
            simpa [setDownload_download_other _ _ _ _ hr, bodyOf, hne] using hb
      next => simpa [bodyOf] using hb
  | streamError r e =>
      simp only [step, broadcastAudio_onError]
      split
      next offset h =>
        by_cases hr : d = r
        · subst hr
          simp [setDownload_download_same, BodySoFar]
        · simpa [setDownload_download_other _ _ _ _ hr, bodyOf] using hb
      next => simpa [bodyOf] using hb
  | transcribed r result =>
      simp only [step]
      split
      · cases result <;>
          simpa [uploadAudio_afterTranscription, speechToTextAPI, callGPT, Server.setStage,
            bodyOf] using hb
      · simpa [bodyOf] using hb
  | _ =>
      simp only [step, uploadAudio, uploadAudio_onData, uploadAudio_onEnd,
        uploadAudio_afterTranscription, speechToTextAPI, callGPT_afterCompletion,
        GptResponsetoSpeech_afterCreate, GptResponsetoSpeech_afterArrayBuffer,
        GptResponsetoSpeech_afterWriteFile, writeFile_onOpen, writeFile_onFlush, root,
        checkVariable, callGPT, GptResponsetoSpeech]
      repeat' split
      all_goals simpa [Server.setStage, bodyOf] using hb

/-- While no write touches the file, an execution keeps the file and keeps what
download `d` has received in line with its offset. -/
theorem exec_body (s : Server) (d : Nat) (bytes sent : Bytes) (evs : List Event)
    (hf : s.voicedFile = some bytes) (hq : ∀ ev ∈ evs, ev.touchesVoicedFile = false)
    (hb : BodySoFar bytes sent (s.download d)) :
    (exec s evs).voicedFile = some bytes ∧
      BodySoFar bytes (sent ++ bodyOf d (run s evs).2) ((exec s evs).download d) := by
  induction evs generalizing s sent with
  | nil => simpa [exec_nil, run, bodyOf] using And.intro hf hb
  | cons ev evs ih =>
      obtain ⟨h1, h2⟩ := step_body s d bytes sent ev hf (hq ev (List.mem_cons_self _ _)) hb
      have := ih (step s ev).1 _ h1 (fun e he => hq e (List.mem_cons_of_mem _ he)) h2
      rw [exec_cons, run_cons_outputs, bodyOf_append, ← List.append_assoc]
      exact this

theorem step_no_404 (s : Server) (ev : Event) (h : s.voicedFile.isSome = true) :
    Output.sendStatus 404 ∉ (step s ev).2 := by
  obtain ⟨bytes, hb⟩ := Option.isSome_iff_exists.mp h
  cases ev with
  | transcribed r result =>
      simp only [step]
      split
      · cases result <;> simp [uploadAudio_afterTranscription, speechToTextAPI, callGPT]
      · simp
  | _ =>
      simp only [step, uploadAudio, uploadAudio_onData, uploadAudio_onEnd,
        callGPT_afterCompletion, GptResponsetoSpeech_afterCreate,
        GptResponsetoSpeech_afterArrayBuffer, GptResponsetoSpeech_afterWriteFile,
        writeFile_onOpen, writeFile_onFlush, root, checkVariable, broadcastAudio,
        broadcastAudio_onStat, broadcastAudio_onRead, broadcastAudio_onError,
        GptResponsetoSpeech, hb]
      repeat' split
      all_goals simp

/-! ## Example states -/

/-- Request 0 is suspended at the chat completion; an earlier run left the
bytes `[7, 7]` in `voicedFile`. -/
def awaitingCompletion : Server :=
  exec (boot none (some [7, 7]))
    [Event.uploadStart 0, Event.uploadData 0 [1, 2], Event.uploadEnd 0,
     Event.transcribed 0 (Except.ok "what is 2+2")]

/-- Request 0 has just called `GptResponsetoSpeech`; an earlier run left the
bytes `[7, 7]` in `voicedFile`. -/
def awaitingSpeech : Server :=
  exec awaitingCompletion [Event.completed 0 (Except.ok ⟨[some "4"]⟩)]

/-- Request 0 has called `fs.promises.writeFile` with the buffer `[5, 6]`; the
file is not opened yet and still holds `[7, 7]`. -/
def awaitingOpen : Server :=
  exec awaitingSpeech
    [Event.speechCreated 0 (Except.ok ()), Event.arrayBuffered 0 (Except.ok [5, 6])]

/-- Request 0 is suspended at the write of the buffer `[5, 6]`, which has
opened the file. -/
def awaitingWrite : Server :=
  exec awaitingOpen [Event.fileOpened 0 (Except.ok ())]

/-- Request 0 is suspended at `await speechToTextAPI()`. -/
def awaitingTranscription : Server :=
  exec (boot none none) [Event.uploadStart 0, Event.uploadData 0 [1, 2], Event.uploadEnd 0]

/-- Request 0 runs up to its pending file write; request 1 then starts, and the
write of request 0 is carried out and fulfilled while request 1 is still being
received. -/
def overlappingUploads : List Event :=
  [Event.uploadStart 0, Event.uploadData 0 [1, 2], Event.uploadEnd 0,
   Event.transcribed 0 (Except.ok "what is 2+2"), Event.completed 0 (Except.ok ⟨[some "4"]⟩),
   Event.speechCreated 0 (Except.ok ()), Event.arrayBuffered 0 (Except.ok [5, 6]),
   Event.uploadStart 1, Event.fileOpened 0 (Except.ok ()), Event.written 0 (Except.ok ())]

/-- The rest of a run whose transcript is `text`: completion, speech call,
buffer and file write all succeed. -/
def restOfRun (text : Settled String) : List Event :=
  [Event.transcribed 0 text, Event.completed 0 (Except.ok ⟨[some "Hello"]⟩),
   Event.speechCreated 0 (Except.ok ()), Event.arrayBuffered 0 (Except.ok [5, 6]),
   Event.fileOpened 0 (Except.ok ()), Event.written 0 (Except.ok ())]

/-- Two uploads received at the same time: request 1 opens the recording while
request 0 is being received, and both write from their own offset 0. -/
def clashingUploads : List Event :=
  [Event.uploadStart 0, Event.uploadStart 1, Event.uploadData 0 [1, 2],
   Event.uploadData 1 [3], Event.uploadEnd 0]

/-- The whole of `GptResponsetoSpeech` with a write that opens the file, brings
one byte of `[5, 6]` into it and is then rejected. -/
def interruptedWrite : List Event :=
  [Event.speechCreated 0 (Except.ok ()), Event.arrayBuffered 0 (Except.ok [5, 6]),
   Event.fileOpened 0 (Except.ok ()), Event.flushed 0 1,
   Event.written 0 (Except.error ⟨"ENOSPC"⟩)]

/-- The first run ever gets as far as opening the file; a download is then
requested and its `fs.stat` callback runs while the write is in flight. -/
def downloadDuringFirstWrite : List Event :=
  [Event.uploadStart 0, Event.uploadEnd 0, Event.transcribed 0 (Except.ok "hi"),
   Event.completed 0 (Except.ok ⟨[some "Hello"]⟩), Event.speechCreated 0 (Except.ok ()),
   Event.arrayBuffered 0 (Except.ok [5, 6]), Event.fileOpened 0 (Except.ok ()),
   Event.getBroadcastAudio 0, Event.statDone 0]

/-- After the successful run `overlappingUploads`, which leaves `[5, 6]`, the
pipeline of request 1 reaches its file write; a download takes its size from
`fs.stat` before that write and reads the file after it. -/
def downloadAcrossSecondWrite : List Event :=
  overlappingUploads ++
    [Event.uploadEnd 1, Event.transcribed 1 (Except.ok "and 3+3"),
     Event.completed 1 (Except.ok ⟨[some "6"]⟩), Event.speechCreated 1 (Except.ok ()),
     Event.arrayBuffered 1 (Except.ok [8, 9, 10]),
     Event.getBroadcastAudio 0, Event.statDone 0,
     Event.fileOpened 1 (Except.ok ()), Event.written 1 (Except.ok ()),
     Event.streamRead 0 9, Event.streamRead 0 0]

/-! ## The claims -/

/-- C9: in every state, `GET /checkVariable` answers with status 200 and the JSON
object whose field `ready` is the current value of the flag, and the state after
the call is the state before it (flag, both files, every pipeline); so a second
call right after the first gives the same answer. -/
theorem checkVariable_pure_read (s : Server) :
    step s Event.getCheckVariable = (s, [Output.json 200 s.shouldDownloadFile]) ∧
      (step (step s Event.getCheckVariable).1 Event.getCheckVariable).2
        = (step s Event.getCheckVariable).2 := by
  constructor <;> rfl

/-- C7: whatever the speech-to-text call does, `speechToTextAPI` does not throw:
it returns the text when the call is fulfilled and `null` when it is rejected;
the `/uploadAudio` handler then sends exactly one response on the request, with
status 200 and that value as body, and its own promise is not rejected. -/
theorem speechToTextAPI_never_throws (s : Server) (req : Nat) (result : Settled String)
    (h : s.stage req = Stage.transcribing) :
    (speechToTextAPI result).1 = Except.ok result.toOption ∧
      Output.send req 200 result.toOption ∈ (step s (Event.transcribed req result)).2 ∧
      (∀ r status body, Output.send r status body ∈ (step s (Event.transcribed req result)).2 →
        r = req ∧ status = 200 ∧ body = result.toOption) ∧
      (step s (Event.transcribed req result)).1.stage req = Stage.generating := by
  cases result <;>
    simp [step, h, uploadAudio_afterTranscription, speechToTextAPI, callGPT, Except.toOption,
      setStage_stage_same]

theorem speechToTextAPI_never_throws_witness :
    awaitingTranscription.stage 0 = Stage.transcribing ∧
      (speechToTextAPI (Except.error ⟨"timeout"⟩)).1 = Except.ok none ∧
      Output.send 0 200 none ∈
        (step awaitingTranscription (Event.transcribed 0 (Except.error ⟨"timeout"⟩))).2 :=
  ⟨by decide,
    (speechToTextAPI_never_throws awaitingTranscription 0 (Except.error ⟨"timeout"⟩)
      (by decide)).1,
    (speechToTextAPI_never_throws awaitingTranscription 0 (Except.error ⟨"timeout"⟩)
      (by decide)).2.1⟩

/-- C2: for every text sent to the chat model and every state of the flag and of
`voicedFile`, when the chat-completion call of `callGPT` is rejected, the step
only logs the error: `GptResponsetoSpeech` is not invoked and no speech request
is sent, `voicedFile` is as it was (absent, or the same bytes), the flag is as
it was, and the run of that request is over (none of its later events does
anything). -/
theorem callGPT_failure_aborts_pipeline (s : Server) (req : Nat) (e : JsError)
    (h : s.stage req = Stage.generating) :
    (step s (Event.completed req (Except.error e))).2 = [Output.consoleError "Error calling GPT:"] ∧
      (∀ r arg, Output.invoke Fn.GptResponsetoSpeech r arg ∉
        (step s (Event.completed req (Except.error e))).2) ∧
      (∀ r input cap, Output.provider Api.speech r input cap ∉
        (step s (Event.completed req (Except.error e))).2) ∧
      (step s (Event.completed req (Except.error e))).1.voicedFile = s.voicedFile ∧
      (step s (Event.completed req (Except.error e))).1.shouldDownloadFile
        = s.shouldDownloadFile ∧
      (step s (Event.completed req (Except.error e))).1.stage req = Stage.settled ∧
      (∀ ev, ev.request = some req →
        step (step s (Event.completed req (Except.error e))).1 ev
          = ((step s (Event.completed req (Except.error e))).1, [])) := by
  have hs : step s (Event.completed req (Except.error e))
      = (s.setStage req Stage.settled, [Output.consoleError "Error calling GPT:"]) := by
    simp [step, h, callGPT_afterCompletion]
  rw [hs]
  refine ⟨rfl, ?_, ?_, rfl, rfl, setStage_stage_same _ _ _, ?_⟩
  · simp
  · simp
  · intro ev hev
    exact step_settled _ req ev (setStage_stage_same _ _ _) hev

theorem callGPT_failure_aborts_pipeline_witness :
    awaitingCompletion.stage 0 = Stage.generating ∧
      (step awaitingCompletion (Event.completed 0 (Except.error ⟨"429"⟩))).1.voicedFile
        = some [7, 7] ∧
      (step awaitingCompletion (Event.completed 0 (Except.error ⟨"429"⟩))).1.shouldDownloadFile
        = false :=
  ⟨by decide,
    (callGPT_failure_aborts_pipeline awaitingCompletion 0 ⟨"429"⟩ (by decide)).2.2.2.1,
    (callGPT_failure_aborts_pipeline awaitingCompletion 0 ⟨"429"⟩ (by decide)).2.2.2.2.1⟩

/-- C4: the flag starts false, and a step turns it from false to true only when
it is the continuation of `GptResponsetoSpeech` after a fulfilled
`fs.promises.writeFile`, which has put the synthesized bytes into `voicedFile`.
Hence no route handler, no failed transcription, completion, speech call or
file write makes it true. -/
theorem flag_true_only_after_fulfilled_write (recordFile voicedFile : Option Bytes)
    (s : Server) (ev : Event) (h0 : s.shouldDownloadFile = false)
    (h1 : (step s ev).1.shouldDownloadFile = true) :
    (boot recordFile voicedFile).shouldDownloadFile = false ∧
      ∃ req buffer, ev = Event.written req (Except.ok ()) ∧ s.stage req = Stage.writing buffer ∧
        (step s ev).1.voicedFile = some buffer :=
  ⟨rfl, step_sets_flag s ev h0 h1⟩

theorem flag_true_only_after_fulfilled_write_witness :
    awaitingWrite.shouldDownloadFile = false ∧
      (step awaitingWrite (Event.written 0 (Except.ok ()))).1.shouldDownloadFile = true ∧
      (boot none none).shouldDownloadFile = false ∧
      ∃ req buffer, Event.written 0 (Except.ok ()) = Event.written req (Except.ok ()) ∧
        awaitingWrite.stage req = Stage.writing buffer ∧
        (step awaitingWrite (Event.written 0 (Except.ok ()))).1.voicedFile = some buffer :=
  ⟨by decide, by decide,
    flag_true_only_after_fulfilled_write none none awaitingWrite (Event.written 0 (Except.ok ()))
      (by decide) (by decide)⟩

/-- C1, refuted as stated: when the transcription is `null` (the call was
rejected) or the empty string, the handler still invokes `callGPT` with that
value and sends the chat request; with an empty transcript and a provider that
answers, the run goes on to write the audio and the flag becomes true. -/
theorem callGPT_invoked_on_null_or_empty_transcript :
    (speechToTextAPI (Except.error ⟨"timeout"⟩)).1 = Except.ok none ∧
      Output.invoke Fn.callGPT 0 none ∈
        (step awaitingTranscription (Event.transcribed 0 (Except.error ⟨"timeout"⟩))).2 ∧
      Output.provider Api.chatCompletions 0 none (some 30) ∈
        (step awaitingTranscription (Event.transcribed 0 (Except.error ⟨"timeout"⟩))).2 ∧
      (speechToTextAPI (Except.ok "")).1 = Except.ok (some "") ∧
      Output.invoke Fn.callGPT 0 (some "") ∈
        (step awaitingTranscription (Event.transcribed 0 (Except.ok ""))).2 ∧
      (exec awaitingTranscription (restOfRun (Except.ok ""))).shouldDownloadFile = true :=
  ⟨rfl, by decide, by decide, rfl, by decide, by decide⟩

/-- C1, amended: for every upload, whatever the transcription yields (the text,
the empty string, or `null`), the handler invokes `callGPT` with that value and
the chat request is sent with it; this step leaves the flag as it was, and when
the chat-completion call is then rejected the flag is still as it was and the
run of the request is over. -/
theorem uploadAudio_always_calls_callGPT (s : Server) (req : Nat) (result : Settled String)
    (e : JsError) (h : s.stage req = Stage.transcribing) :
    Output.invoke Fn.callGPT req result.toOption ∈ (step s (Event.transcribed req result)).2 ∧
      Output.provider Api.chatCompletions req result.toOption (some maxTokens) ∈
        (step s (Event.transcribed req result)).2 ∧
      (step s (Event.transcribed req result)).1.shouldDownloadFile = s.shouldDownloadFile ∧
      (step s (Event.transcribed req result)).1.stage req = Stage.generating ∧
      (exec s [Event.transcribed req result, Event.completed req (Except.error e)]).shouldDownloadFile
        = s.shouldDownloadFile ∧
      (exec s [Event.transcribed req result, Event.completed req (Except.error e)]).stage req
        = Stage.settled := by
  have hs : step s (Event.transcribed req result)
      = (s.setStage req Stage.generating,
          (speechToTextAPI result).2 ++ [Output.send req 200 result.toOption]
            ++ callGPT req result.toOption) := by
    cases result <;>
      simp [step, h, uploadAudio_afterTranscription, speechToTextAPI, Except.toOption]
  have hg : (s.setStage req Stage.generating).stage req = Stage.generating :=
    setStage_stage_same _ _ _
  have hc : step (s.setStage req Stage.generating) (Event.completed req (Except.error e))
      = ((s.setStage req Stage.generating).setStage req Stage.settled,
          [Output.consoleError "Error calling GPT:"]) := by
    simp [step, hg, callGPT_afterCompletion]
  simp only [exec_cons, exec_nil, hs, hc]
  refine ⟨?_, ?_, rfl, hg, rfl, setStage_stage_same _ _ _⟩
  · simp [callGPT]
  · simp [callGPT]

theorem uploadAudio_always_calls_callGPT_witness :
    awaitingTranscription.stage 0 = Stage.transcribing ∧
      Output.invoke Fn.callGPT 0 (some "") ∈
        (step awaitingTranscription (Event.transcribed 0 (Except.ok ""))).2 ∧
      (exec awaitingTranscription
          [Event.transcribed 0 (Except.ok ""),
           Event.completed 0 (Except.error ⟨"400"⟩)]).shouldDownloadFile
        = awaitingTranscription.shouldDownloadFile :=
  ⟨by decide,
    (uploadAudio_always_calls_callGPT awaitingTranscription 0 (Except.ok "") ⟨"400"⟩
      (by decide)).1,
    (uploadAudio_always_calls_callGPT awaitingTranscription 0 (Except.ok "") ⟨"400"⟩
      (by decide)).2.2.2.2.1⟩

/-- C3, refuted as stated: request 1 starts while the pipeline of request 0 is
still running; when the file write of request 0 is fulfilled, request 1 has
started and is still being received, yet `/checkVariable` reports `ready: true`. -/
theorem ready_true_before_own_synthesis :
    (exec (boot none none) (overlappingUploads.take 8)).stage 1 = Stage.receiving 0 ∧
      (exec (boot none none) (overlappingUploads.take 8)).shouldDownloadFile = false ∧
      (exec (boot none none) overlappingUploads).stage 1 = Stage.receiving 0 ∧
      (step (exec (boot none none) overlappingUploads) Event.getCheckVariable).2
        = [Output.json 200 true] := by
  decide

/-- C3, amended: in every execution, at every point after an upload has started
and before the file write of any pipeline (its own or an overlapping one) has
been fulfilled since that start, `/checkVariable` reports `ready: false`. -/
theorem not_ready_until_a_write_is_fulfilled (s : Server) (req : Nat) (evs : List Event)
    (h : s.stage req = Stage.fresh) (hw : ∀ ev ∈ evs, ev.isWriteFulfilled = false) :
    (step (exec s (Event.uploadStart req :: evs)) Event.getCheckVariable).2
      = [Output.json 200 false] := by
  have h0 : (step s (Event.uploadStart req)).1.shouldDownloadFile = false := by
    simp [step, h, uploadAudio, setStage_shouldDownloadFile]
  have hf := exec_flag_stays_false _ evs hw h0
  rw [exec_cons]
  show [Output.json 200 (exec (step s (Event.uploadStart req)).1 evs).shouldDownloadFile] = _
  rw [hf]

theorem not_ready_until_a_write_is_fulfilled_witness :
    (exec (boot none (some [7, 7])) overlappingUploads).stage 2 = Stage.fresh ∧
      (∀ ev ∈ [Event.uploadData 2 [3], Event.uploadEnd 2, Event.getRoot],
        ev.isWriteFulfilled = false) ∧
      (step (exec (exec (boot none (some [7, 7])) overlappingUploads)
          (Event.uploadStart 2 :: [Event.uploadData 2 [3], Event.uploadEnd 2, Event.getRoot]))
        Event.getCheckVariable).2 = [Output.json 200 false] :=
  ⟨by decide, by simp [Event.isWriteFulfilled],
    not_ready_until_a_write_is_fulfilled _ 2 _ (by decide) (by simp [Event.isWriteFulfilled])⟩

/-- C10: in every state reached from start-up by any interleaving of uploads,
pipeline steps and GET requests, when the flag is true (`/checkVariable` reports
`ready: true`) the file at `voicedFile` exists; from then on, whatever happens
next, no step of the server answers 404, and the `fs.stat` callback of every
`GET /broadcastAudio` finds the file and writes the 200 head. -/
theorem ready_implies_broadcast_not_404 (recordFile voicedFile : Option Bytes)
    (evs : List Event)
    (h : (exec (boot recordFile voicedFile) evs).shouldDownloadFile = true) :
    (step (exec (boot recordFile voicedFile) evs) Event.getCheckVariable).2
        = [Output.json 200 true] ∧
      (exec (boot recordFile voicedFile) evs).voicedFile.isSome = true ∧
      ∀ more,
        (∀ ev, Output.sendStatus 404 ∉
          (step (exec (exec (boot recordFile voicedFile) evs) more) ev).2) ∧
        ∀ d, (exec (exec (boot recordFile voicedFile) evs) more).download d = Download.statting →
          ∃ bytes, (exec (exec (boot recordFile voicedFile) evs) more).voicedFile = some bytes ∧
            (step (exec (exec (boot recordFile voicedFile) evs) more) (Event.statDone d)).2
              = [Output.writeHead 200 "audio/wav" bytes.length] := by
  have hinv : ReadyHasFile (exec (boot recordFile voicedFile) evs) :=
    exec_readyHasFile _ evs (by intro hb; simp [boot] at hb)
  have hfile := hinv h
  refine ⟨by simp [step, checkVariable, h], hfile, fun more => ?_⟩
  have hmore := exec_keeps_voicedFile _ more hfile
  refine ⟨fun ev => step_no_404 _ ev hmore, fun d hd => ?_⟩
  obtain ⟨bytes, hb⟩ := Option.isSome_iff_exists.mp hmore
  exact ⟨bytes, hb, by simp [step, hd, broadcastAudio_onStat, hb]⟩

theorem ready_implies_broadcast_not_404_witness :
    (exec (boot none none) overlappingUploads).shouldDownloadFile = true ∧
      (exec (boot none none) overlappingUploads).voicedFile.isSome = true :=
  ⟨by decide, (ready_implies_broadcast_not_404 none none overlappingUploads (by decide)).2.1⟩

/-- C6, refuted as stated: request 1 starts while request 0 is being received.
The body of request 0 is the single chunk `[1, 2]`, yet when its `end` callback
has run the recording holds `[3, 2]`: request 1 truncated the file and wrote
its own chunk over the first byte. -/
theorem recording_garbled_by_overlapping_upload :
    chunksOf 0 clashingUploads = [[1, 2]] ∧
      (exec (boot none none) clashingUploads).stage 0 = Stage.transcribing ∧
      (exec (boot none none) clashingUploads).recordFile = some [3, 2] := by
  decide

/-- C6, amended: for every request body delivered to `/uploadAudio` as any
sequence of chunks, with any events of other pipelines and of GET requests in
between, provided no other upload is being received at the same time (no other
request opens or writes the recording between the start and the end of this
upload), once the `end` callback has run the file at `recordFile` holds exactly
the chunks joined in arrival order, whatever it held before the upload. -/
theorem recording_equals_request_body (s : Server) (req : Nat) (evs : List Event)
    (h : s.stage req = Stage.fresh) (hq : ∀ ev ∈ evs, ev.disturbsUpload req = false) :
    (exec s (Event.uploadStart req :: evs ++ [Event.uploadEnd req])).recordFile
        = some (chunksOf req evs).flatten ∧
      (exec s (Event.uploadStart req :: evs ++ [Event.uploadEnd req])).stage req
        = Stage.transcribing := by
  have hs : step s (Event.uploadStart req)
      = (({ s with shouldDownloadFile := false, recordFile := some [] }).setStage req
          (Stage.receiving 0), []) := by
    simp [step, h, uploadAudio]
  obtain ⟨h1, h2⟩ := exec_receiving (step s (Event.uploadStart req)).1 req [] evs
    (by rw [hs]; exact setStage_stage_same _ _ _) (by rw [hs]; rfl) hq
  simp only [List.nil_append] at h1 h2
  rw [List.cons_append, exec_cons, exec_append, exec_cons, exec_nil]
  generalize exec (step s (Event.uploadStart req)).1 evs = t at h1 h2
  simp [step, h1, uploadAudio_onEnd, setStage_recordFile, setStage_stage_same, h2]

theorem recording_equals_request_body_witness :
    awaitingWrite.stage 1 = Stage.fresh ∧
      (∀ ev ∈ [Event.uploadData 1 [10, 11], Event.getCheckVariable,
          Event.written 0 (Except.ok ()), Event.uploadData 1 [], Event.uploadData 1 [12]],
        ev.disturbsUpload 1 = false) ∧
      (exec awaitingWrite
          (Event.uploadStart 1 ::
            [Event.uploadData 1 [10, 11], Event.getCheckVariable,
              Event.written 0 (Except.ok ()), Event.uploadData 1 [], Event.uploadData 1 [12]]
            ++ [Event.uploadEnd 1])).recordFile
        = some [10, 11, 12] :=
  ⟨by decide, by simp [Event.disturbsUpload],
    (recording_equals_request_body awaitingWrite 1
      [Event.uploadData 1 [10, 11], Event.getCheckVariable,
        Event.written 0 (Except.ok ()), Event.uploadData 1 [], Event.uploadData 1 [12]]
      (by decide) (by simp [Event.disturbsUpload])).1⟩

/-- C8, refuted as stated: `GptResponsetoSpeech` is called while `voicedFile`
holds `[7, 7]` from an earlier run; its write opens the file, brings one byte
into it and is rejected. The failure is caught, but the file now holds `[5]`,
not its previous bytes; had no byte arrived it would be empty. -/
theorem rejected_write_truncates_audio :
    awaitingSpeech.stage 0 = Stage.synthesizing ∧
      awaitingSpeech.voicedFile = some [7, 7] ∧
      failsSynthesis (exec awaitingSpeech (interruptedWrite.take 4)) 0
        (Event.written 0 (Except.error ⟨"ENOSPC"⟩)) = true ∧
      (exec awaitingSpeech interruptedWrite).voicedFile = some [5] ∧
      (exec awaitingSpeech interruptedWrite).stage 0 = Stage.settled ∧
      (exec awaitingSpeech
          (interruptedWrite.take 3 ++ [Event.written 0 (Except.error ⟨"ENOSPC"⟩)])).voicedFile
        = some [] := by
  decide

/-- C8, amended: for every reply text and every state, when `GptResponsetoSpeech`
fails (the speech call, `wav.arrayBuffer()`, or the file write, at the open or
after it, is rejected), the error is caught: the step only logs it, the request
ends with no rejected promise, and that step changes neither the flag (a false
flag stays false) nor the file. The file still has the bytes it had when
`GptResponsetoSpeech` was called whenever no step since then was part of a
write of the file, as is the case when the speech call, the buffer conversion
or the open fails and no other pipeline is writing. -/
theorem synthesis_failure_keeps_flag_and_file (s : Server) (req : Nat) (ev : Event)
    (h : failsSynthesis s req ev = true) :
    (step s ev).1.shouldDownloadFile = s.shouldDownloadFile ∧
      (s.shouldDownloadFile = false → (step s ev).1.shouldDownloadFile = false) ∧
      (step s ev).2 = [Output.consoleError "Error saving audio file:"] ∧
      (step s ev).1.stage req = Stage.settled ∧
      (step s ev).1.voicedFile = s.voicedFile ∧
      ∀ t evs, t.stage req = Stage.synthesizing → exec t evs = s →
        (∀ e ∈ evs, e.touchesVoicedFile = false) →
        (step s ev).1.voicedFile = t.voicedFile := by
  have key : step s ev
      = (s.setStage req Stage.settled, [Output.consoleError "Error saving audio file:"]) := by
    cases ev with
    | speechCreated r result =>
        cases result with
        | ok u => simp [failsSynthesis] at h
        | error e =>
            simp only [failsSynthesis, Bool.and_eq_true, decide_eq_true_eq] at h
            obtain ⟨rfl, hst⟩ := h
            simp [step, hst, GptResponsetoSpeech_afterCreate]
    | arrayBuffered r result =>
        cases result with
        | ok u => simp [failsSynthesis] at h
        | error e =>
            simp only [failsSynthesis, Bool.and_eq_true, decide_eq_true_eq] at h
            obtain ⟨rfl, hst⟩ := h
            simp [step, hst, GptResponsetoSpeech_afterArrayBuffer]
    | fileOpened r result =>
        cases result with
        | ok u => simp [failsSynthesis] at h
        | error e =>
            simp only [failsSynthesis, Bool.and_eq_true, decide_eq_true_eq] at h
            obtain ⟨rfl, hst⟩ := h
            cases hs : s.stage r <;> simp [hs] at hst
            simp [step, hs, writeFile_onOpen, GptResponsetoSpeech_afterWriteFile]
    | written r result =>
        cases result with
        | ok u => simp [failsSynthesis] at h
        | error e =>
            simp only [failsSynthesis, Bool.and_eq_true, decide_eq_true_eq] at h
            obtain ⟨rfl, hst⟩ := h
            cases hs : s.stage r <;> simp [hs] at hst
            simp [step, hs, GptResponsetoSpeech_afterWriteFile]
    | _ => simp [failsSynthesis] at h
  rw [key]
  refine ⟨rfl, fun h0 => h0, rfl, setStage_stage_same _ _ _, rfl, ?_⟩
  intro t evs _ hrun hquiet
  rw [setStage_voicedFile, ← hrun]
  exact exec_voicedFile_unchanged t evs hquiet

theorem synthesis_failure_keeps_flag_and_file_witness :
    failsSynthesis awaitingOpen 0 (Event.fileOpened 0 (Except.error ⟨"EACCES"⟩)) = true ∧
      (step awaitingOpen (Event.fileOpened 0 (Except.error ⟨"EACCES"⟩))).1.shouldDownloadFile
        = false ∧
      (step awaitingOpen (Event.fileOpened 0 (Except.error ⟨"EACCES"⟩))).1.stage 0
        = Stage.settled ∧
      awaitingSpeech.voicedFile = some [7, 7] ∧
      (step awaitingOpen (Event.fileOpened 0 (Except.error ⟨"EACCES"⟩))).1.voicedFile
        = awaitingSpeech.voicedFile :=
  ⟨by decide,
    (synthesis_failure_keeps_flag_and_file awaitingOpen 0
      (Event.fileOpened 0 (Except.error ⟨"EACCES"⟩)) (by decide)).2.1 (by decide),
    (synthesis_failure_keeps_flag_and_file awaitingOpen 0
      (Event.fileOpened 0 (Except.error ⟨"EACCES"⟩)) (by decide)).2.2.2.1,
    by decide,
    (synthesis_failure_keeps_flag_and_file awaitingOpen 0
      (Event.fileOpened 0 (Except.error ⟨"EACCES"⟩)) (by decide)).2.2.2.2.2 awaitingSpeech
      [Event.speechCreated 0 (Except.ok ()), Event.arrayBuffered 0 (Except.ok [5, 6])]
      (by decide) rfl (by simp [Event.touchesVoicedFile])⟩

/-- C5, refuted as stated. First, with no file at start and no pipeline run
completed, a download whose `fs.stat` callback runs while the first write is in
flight answers 200 with `Content-Length` 0, not 404: the write has created the
file. Second, after a successful run that left `[5, 6]`, a download takes
`Content-Length` 2 from `fs.stat`, the write of the next run replaces the file,
and the stream delivers the three bytes `[8, 9, 10]`. -/
theorem broadcast_races_with_write :
    (∀ ev ∈ downloadDuringFirstWrite, ev.isWriteFulfilled = false) ∧
      (run (boot none none) downloadDuringFirstWrite).2.getLast?
        = some (Output.writeHead 200 "audio/wav" 0) ∧
      Output.sendStatus 404 ∉ (run (boot none none) downloadDuringFirstWrite).2 ∧
      (exec (boot none none) overlappingUploads).voicedFile = some [5, 6] ∧
      Output.writeHead 200 "audio/wav" 2 ∈ (run (boot none none) downloadAcrossSecondWrite).2 ∧
      (exec (boot none none) downloadAcrossSecondWrite).download 0 = Download.finished ∧
      bodyOf 0 (run (boot none none) downloadAcrossSecondWrite).2 = [8, 9, 10] ∧
      (exec (boot none none) downloadAcrossSecondWrite).voicedFile = some [8, 9, 10] := by
  refine ⟨by simp [downloadDuringFirstWrite, Event.isWriteFulfilled], ?_, ?_, ?_, ?_, ?_, ?_, ?_⟩ <;>
    decide

/-- C5, amended: start with no file at `voicedFile`. As long as no write of the
file has begun, the `fs.stat` callback of `GET /broadcastAudio` logs the error
and answers 404. Once a write has been fulfilled, the file holds the written
bytes until the next write begins. And for a download during which no write of
the file is in progress, from its `fs.stat` callback to the end of its stream:
the head is 200 with `Content-Type: audio/wav` and `Content-Length` equal to
the number of bytes of the file, the body delivered when the stream has ended
is exactly the bytes of the file, and two reads large enough do end the stream. -/
theorem broadcastAudio_before_and_after_run (recordFile : Option Bytes) (before : List Event)
    (d : Nat) (hb : ∀ ev ∈ before, ev.touchesVoicedFile = false)
    (hd : (exec (boot recordFile none) before).download d = Download.statting) :
    (step (exec (boot recordFile none) before) (Event.statDone d)).2
        = [Output.consoleError "File not found", Output.sendStatus 404] ∧
      (∀ (s : Server) (req : Nat) (buffer : Bytes) (later : List Event),
        s.stage req = Stage.writing buffer → (∀ ev ∈ later, ev.touchesVoicedFile = false) →
        (exec s (Event.written req (Except.ok ()) :: later)).voicedFile = some buffer) ∧
      ∀ (s : Server) (bytes : Bytes) (evs : List Event),
        s.voicedFile = some bytes → s.download d = Download.statting →
        (∀ ev ∈ evs, ev.touchesVoicedFile = false) →
        (step s (Event.statDone d)).2 = [Output.writeHead 200 "audio/wav" bytes.length] ∧
          ((exec s (Event.statDone d :: evs)).download d = Download.finished →
            bodyOf d (run s (Event.statDone d :: evs)).2 = bytes) ∧
          (exec s [Event.statDone d, Event.streamRead d bytes.length,
            Event.streamRead d 0]).download d = Download.finished := by
  refine ⟨?_, ?_, ?_⟩
  · have hv : (exec (boot recordFile none) before).voicedFile = none := by
      rw [exec_voicedFile_unchanged _ before hb]
      rfl
    simp [step, hd, broadcastAudio_onStat, hv]
  · intro s req buffer later hw hl
    rw [exec_cons, exec_voicedFile_unchanged _ later hl]
    simp [step, hw, GptResponsetoSpeech_afterWriteFile, setStage_voicedFile]
  · intro s bytes evs hf hs hq
    have hstat : step s (Event.statDone d)
        = (s.setDownload d (Download.streaming 0),
            [Output.writeHead 200 "audio/wav" bytes.length]) := by
      simp [step, hs, broadcastAudio_onStat, hf]
    refine ⟨by rw [hstat], ?_, ?_⟩
    · intro hfin
      have hbody := (exec_body (s.setDownload d (Download.streaming 0)) d bytes [] evs
        (by rw [setDownload_voicedFile, hf]) hq
        (by rw [setDownload_download_same]; simp [BodySoFar])).2
      rw [exec_cons, hstat] at hfin
      rw [hfin] at hbody
      rw [run_cons_outputs, hstat, bodyOf_append]
      simpa [bodyOf, BodySoFar] using hbody
    · rw [exec_cons, hstat, exec_cons]
      cases bytes with
      | nil =>
          simp [step, setDownload_download_same, broadcastAudio_onRead, setDownload_voicedFile,
            hf, exec_cons, exec_nil]
      | cons b rest =>
          simp [step, setDownload_download_same, broadcastAudio_onRead, setDownload_voicedFile,
            hf, exec_cons, exec_nil]

theorem broadcastAudio_before_and_after_run_witness :
    (∀ ev ∈ [Event.uploadStart 0, Event.getBroadcastAudio 3], ev.touchesVoicedFile = false) ∧
      (exec (boot none none) [Event.uploadStart 0, Event.getBroadcastAudio 3]).download 3
        = Download.statting ∧
      (step (exec (boot none none) [Event.uploadStart 0, Event.getBroadcastAudio 3])
          (Event.statDone 3)).2
        = [Output.consoleError "File not found", Output.sendStatus 404] ∧
      (exec awaitingWrite [Event.written 0 (Except.ok ()), Event.getBroadcastAudio 3]).voicedFile
        = some [5, 6] ∧
      bodyOf 3 (run (exec awaitingWrite [Event.written 0 (Except.ok ()), Event.getBroadcastAudio 3])
          (Event.statDone 3 :: [Event.streamRead 3 0, Event.getCheckVariable,
            Event.streamRead 3 4, Event.streamRead 3 0])).2
        = [5, 6] :=
  ⟨by simp [Event.touchesVoicedFile], by decide,
    (broadcastAudio_before_and_after_run none [Event.uploadStart 0, Event.getBroadcastAudio 3] 3
      (by simp [Event.touchesVoicedFile]) (by decide)).1,
    (broadcastAudio_before_and_after_run none [Event.uploadStart 0, Event.getBroadcastAudio 3] 3
      (by simp [Event.touchesVoicedFile]) (by decide)).2.1 awaitingWrite 0 [5, 6]
      [Event.getBroadcastAudio 3] (by decide) (by simp [Event.touchesVoicedFile]),
    ((broadcastAudio_before_and_after_run none [Event.uploadStart 0, Event.getBroadcastAudio 3] 3
      (by simp [Event.touchesVoicedFile]) (by decide)).2.2
      (exec awaitingWrite [Event.written 0 (Except.ok ()), Event.getBroadcastAudio 3]) [5, 6]
      [Event.streamRead 3 0, Event.getCheckVariable, Event.streamRead 3 4, Event.streamRead 3 0]
      (by decide) (by decide) (by simp [Event.touchesVoicedFile])).2.1 (by decide)⟩

end VoiceServer
